import Mathlib

/-!
Verification of the Concierge workflow runtime.

This file is a shallow embedding, in Lean 4, of the core of the Concierge
SDK: the in-memory state backend (src/state/memory.py), the state-backend
selection (src/state/__init__.py), the staged MCP tool surface
(src/__init__.py, class Concierge), and the workflow engine
(src/concierge/core/workflow.py and
src/concierge/core/engine/orchestrator.py).

Python dictionaries with string keys are embedded as insertion-ordered
association lists; mutation becomes explicit state passing; functions that
can raise return Except or Option. The modules concierge/core/stage.py and
concierge/core/state.py are imported by the sources above but are not part
of the repository snapshot; their definitions are modelled from the
specification and are marked as such in their doc comments.
-/

set_option autoImplicit false
set_option maxRecDepth 4096

/-- A Python dict with string keys, embedded as an insertion-ordered
association list whose keys are unique by construction. -/
abbrev PyDict (α : Type) : Type := List (String × α)

/-- Models Python dict.get(k): the value at the first binding of k, if any. -/
def dictGet {α : Type} : PyDict α → String → Option α
  | [], _ => none
  | (k', v) :: rest, k => if k' = k then some v else dictGet rest k

/-- Models Python d[k] = v: update the binding in place if the key exists,
else append it (insertion order preserved, as in a Python dict). -/
def dictSet {α : Type} : PyDict α → String → α → PyDict α
  | [], k, v => [(k, v)]
  | (k', v') :: rest, k, v =>
      if k' = k then (k, v) :: rest else (k', v') :: dictSet rest k v

/-- Models Python d.pop(k, None): remove the binding of k. Since dict keys
are unique, removing every binding of k is the same operation. -/
def dictPop {α : Type} (m : PyDict α) (k : String) : PyDict α :=
  m.filter (fun kv => !(kv.1 = k : Bool))

/-- Models Python list(d.keys()). -/
def dictKeys {α : Type} (m : PyDict α) : List String :=
  m.map Prod.fst

theorem dictGet_dictSet {α : Type} (m : PyDict α) (k k' : String) (v : α) :
    dictGet (dictSet m k v) k' = if k = k' then some v else dictGet m k' := by
  induction m with
  | nil => by_cases h : k = k' <;> simp [dictSet, dictGet, h]
  | cons hd tl ih =>
      obtain ⟨a, b⟩ := hd
      by_cases ha : a = k
      · subst ha
        by_cases h : a = k' <;> simp [dictSet, dictGet, h]
      · by_cases ha' : a = k'
        · subst ha'
          simp [dictSet, dictGet, ha, Ne.symm ha]
        · simp [dictSet, dictGet, ha, ha', ih]

theorem dictGet_dictSet_self {α : Type} (m : PyDict α) (k : String) (v : α) :
    dictGet (dictSet m k v) k = some v := by
  simp [dictGet_dictSet]

theorem dictGet_dictSet_other {α : Type} (m : PyDict α) (k k' : String) (v : α)
    (h : k' ≠ k) : dictGet (dictSet m k v) k' = dictGet m k' := by
  simp [dictGet_dictSet, Ne.symm h]

theorem dictGet_dictPop {α : Type} (m : PyDict α) (k k' : String) :
    dictGet (dictPop m k) k' = if k = k' then none else dictGet m k' := by
  induction m with
  | nil => by_cases h : k = k' <;> simp [dictPop, dictGet, h]
  | cons hd tl ih =>
      obtain ⟨a, b⟩ := hd
      by_cases ha : a = k
      · subst ha
        by_cases h : a = k' <;> simp_all [dictPop, dictGet, List.filter]
      · by_cases ha' : a = k'
        · subst ha'
          simp_all [dictPop, dictGet, List.filter, Ne.symm ha]
        · simp_all [dictPop, dictGet, List.filter]

theorem dictGet_dictPop_self {α : Type} (m : PyDict α) (k : String) :
    dictGet (dictPop m k) k = none := by
  simp [dictGet_dictPop]

theorem dictGet_dictPop_other {α : Type} (m : PyDict α) (k k' : String)
    (h : k' ≠ k) : dictGet (dictPop m k) k' = dictGet m k' := by
  simp [dictGet_dictPop, Ne.symm h]

/-- The in-memory state backend of src/state/memory.py: a dict from
session id to stage name, and a dict from session id to that session's
key/value dict. -/
structure InMemoryBackend (V : Type) where
  sessionStages : PyDict String
  sessionState : PyDict (PyDict V)
deriving DecidableEq

/-- The empty backend, as built by InMemoryBackend.__init__. -/
def InMemoryBackend.empty (V : Type) : InMemoryBackend V := ⟨[], []⟩

/-- InMemoryBackend.get_session_stage: self._session_stages.get(session_id). -/
def InMemoryBackend.getSessionStage {V : Type} (b : InMemoryBackend V)
    (sessionId : String) : Option String :=
  dictGet b.sessionStages sessionId

/-- InMemoryBackend.set_session_stage: self._session_stages[session_id] = stage. -/
def InMemoryBackend.setSessionStage {V : Type} (b : InMemoryBackend V)
    (sessionId stage : String) : InMemoryBackend V :=
  { b with sessionStages := dictSet b.sessionStages sessionId stage }

/-- InMemoryBackend.delete_session_stage: self._session_stages.pop(session_id, None). -/
def InMemoryBackend.deleteSessionStage {V : Type} (b : InMemoryBackend V)
    (sessionId : String) : InMemoryBackend V :=
  { b with sessionStages := dictPop b.sessionStages sessionId }

/-- InMemoryBackend.get_state: session_data = self._session_state.get(session_id, {});
session_data.get(key). -/
def InMemoryBackend.getState {V : Type} (b : InMemoryBackend V)
    (sessionId key : String) : Option V :=
  dictGet ((dictGet b.sessionState sessionId).getD []) key

/-- InMemoryBackend.set_state: if session_id not in self._session_state,
bind it to {}; then self._session_state[session_id][key] = value. -/
def InMemoryBackend.setState {V : Type} (b : InMemoryBackend V)
    (sessionId key : String) (value : V) : InMemoryBackend V :=
  let sessionData := (dictGet b.sessionState sessionId).getD []
  { b with sessionState := dictSet b.sessionState sessionId (dictSet sessionData key value) }

/-- InMemoryBackend.clear_session: pop both the stage and the key/value dict. -/
def InMemoryBackend.clearSession {V : Type} (b : InMemoryBackend V)
    (sessionId : String) : InMemoryBackend V :=
  { b with sessionStages := dictPop b.sessionStages sessionId,
           sessionState := dictPop b.sessionState sessionId }

/-- Which backend get_default_backend (src/state/__init__.py) constructs. -/
inductive BackendChoice where
  | inMemory
  | postgres (url : String)
deriving DecidableEq

/-- Models Python str.startswith, character by character. -/
def pyStartsWith (s pre : String) : Bool :=
  List.isPrefixOf pre.data s.data

/-- get_default_backend of src/state/__init__.py. STATE_URL is
os.getenv("CONCIERGE_STATE_URL"), so the argument is an optional string;
Python truthiness makes the empty string fall into the in-memory branch.
An unrecognized scheme raises ValueError, modelled as Except.error. -/
def getDefaultBackend (stateUrl : Option String) : Except String BackendChoice :=
  match stateUrl with
  | none => .ok .inMemory
  | some u =>
      if u = "" then .ok .inMemory
      else if pyStartsWith u "postgresql://" || pyStartsWith u "postgres://" then
        .ok (.postgres u)
      else
        .error ("Unknown state backend URL scheme: " ++ u ++
          ". Supported: postgresql://, postgres://")

/-- C6: on the in-memory state backend, set followed by get returns the
value written, the value survives writes to any other (session, key) pair
and stage writes, set_stage followed by get_stage returns the stage, and
after clear both get and get_stage return none. -/
theorem c6_backend_roundtrip_and_clear {V : Type} (b : InMemoryBackend V)
    (s k s' k' s2 q : String) (v v' : V) (h : s' ≠ s ∨ k' ≠ k) :
    (b.setState s k v).getState s k = some v
    ∧ ((b.setState s k v).setState s' k' v').getState s k = some v
    ∧ ((b.setState s k v).setSessionStage s2 q).getState s k = some v
    ∧ (b.setSessionStage s q).getSessionStage s = some q
    ∧ (b.clearSession s).getState s k = none
    ∧ (b.clearSession s).getSessionStage s = none := by
  refine ⟨?_, ?_, ?_, ?_, ?_, ?_⟩
  · simp [InMemoryBackend.setState, InMemoryBackend.getState,
      dictGet_dictSet_self, dictGet_dictSet]
  · rcases h with h | h
    · simp [InMemoryBackend.setState, InMemoryBackend.getState,
        dictGet_dictSet_other _ _ _ _ (Ne.symm h), dictGet_dictSet_self,
        dictGet_dictSet]
    · by_cases hs : s' = s
      · subst hs
        simp [InMemoryBackend.setState, InMemoryBackend.getState,
          dictGet_dictSet_self, dictGet_dictSet_other _ _ _ _ (Ne.symm h),
          dictGet_dictSet]
      · simp [InMemoryBackend.setState, InMemoryBackend.getState,
          dictGet_dictSet_other _ _ _ _ (Ne.symm hs), dictGet_dictSet_self,
          dictGet_dictSet]
  · simp [InMemoryBackend.setState, InMemoryBackend.setSessionStage,
      InMemoryBackend.getState, dictGet_dictSet_self, dictGet_dictSet]
  · simp [InMemoryBackend.setSessionStage, InMemoryBackend.getSessionStage,
      dictGet_dictSet_self]
  · simp [InMemoryBackend.clearSession, InMemoryBackend.getState,
      dictGet_dictPop_self, dictGet]
  · simp [InMemoryBackend.clearSession, InMemoryBackend.getSessionStage,
      dictGet_dictPop_self]

/-- C6 witness: the round-trip and clear behavior evaluated at a concrete
backend, sessions and keys. -/
theorem c6_backend_roundtrip_and_clear_witness :
    (("other" : String) ≠ "A" ∨ ("y" : String) ≠ "x")
    ∧ (((InMemoryBackend.empty Nat).setState "A" "x" 7).getState "A" "x" = some 7
      ∧ ((((InMemoryBackend.empty Nat).setState "A" "x" 7).setState "other" "y" 9).getState "A" "x" = some 7)
      ∧ ((((InMemoryBackend.empty Nat).setState "A" "x" 7).setSessionStage "B" "browse").getState "A" "x" = some 7)
      ∧ (((InMemoryBackend.empty Nat).setSessionStage "A" "browse").getSessionStage "A" = some "browse")
      ∧ (((InMemoryBackend.empty Nat).clearSession "A").getState "A" "x" = none)
      ∧ (((InMemoryBackend.empty Nat).clearSession "A").getSessionStage "A" = none)) :=
  ⟨Or.inl (by decide),
    c6_backend_roundtrip_and_clear (InMemoryBackend.empty Nat)
      "A" "x" "other" "y" "B" "browse" 7 9 (Or.inl (by decide))⟩

/-- C7: state is partitioned by session id: writes under two distinct
sessions to the same key are observed independently, and clearing one
session changes nothing observable about the other. -/
theorem c7_session_isolation {V : Type} (b : InMemoryBackend V)
    (s1 s2 k : String) (v1 v2 : V) (h : s1 ≠ s2) :
    (((b.setState s1 k v1).setState s2 k v2).getState s1 k = some v1)
    ∧ (((b.setState s1 k v1).setState s2 k v2).getState s2 k = some v2)
    ∧ (∀ k0, (((b.setState s1 k v1).setState s2 k v2).clearSession s1).getState s2 k0
        = ((b.setState s1 k v1).setState s2 k v2).getState s2 k0)
    ∧ ((((b.setState s1 k v1).setState s2 k v2).clearSession s1).getSessionStage s2
        = ((b.setState s1 k v1).setState s2 k v2).getSessionStage s2) := by
  refine ⟨?_, ?_, ?_, ?_⟩
  · simp [InMemoryBackend.setState, InMemoryBackend.getState,
      dictGet_dictSet_other _ _ _ _ h, dictGet_dictSet_self, dictGet_dictSet]
  · simp [InMemoryBackend.setState, InMemoryBackend.getState,
      dictGet_dictSet_self, dictGet_dictSet]
  · intro k0
    simp [InMemoryBackend.clearSession, InMemoryBackend.getState,
      dictGet_dictPop_other _ _ _ (Ne.symm h)]
  · simp [InMemoryBackend.clearSession, InMemoryBackend.getSessionStage,
      dictGet_dictPop_other _ _ _ (Ne.symm h)]

/-- C7 witness: session isolation evaluated at two concrete sessions
writing the same key. -/
theorem c7_session_isolation_witness :
    (("s1" : String) ≠ "s2")
    ∧ ((((InMemoryBackend.empty Nat).setState "s1" "key" 1).setState "s2" "key" 2).getState "s1" "key" = some 1
      ∧ (((InMemoryBackend.empty Nat).setState "s1" "key" 1).setState "s2" "key" 2).getState "s2" "key" = some 2
      ∧ (∀ k0, ((((InMemoryBackend.empty Nat).setState "s1" "key" 1).setState "s2" "key" 2).clearSession "s1").getState "s2" k0
          = (((InMemoryBackend.empty Nat).setState "s1" "key" 1).setState "s2" "key" 2).getState "s2" k0)
      ∧ ((((InMemoryBackend.empty Nat).setState "s1" "key" 1).setState "s2" "key" 2).clearSession "s1").getSessionStage "s2"
          = (((InMemoryBackend.empty Nat).setState "s1" "key" 1).setState "s2" "key" 2).getSessionStage "s2") :=
  ⟨by decide, c7_session_isolation (InMemoryBackend.empty Nat) "s1" "s2" "key" 1 2 (by decide)⟩

/-- C8: backend selection at process start: an absent CONCIERGE_STATE_URL
yields the in-process backend, a postgresql:// or postgres:// URL yields
the relational backend, and any other non-empty value is a fatal error. -/
theorem c8_backend_selection (u w : String)
    (hw : pyStartsWith w "postgresql://" = true ∨ pyStartsWith w "postgres://" = true)
    (h1 : u ≠ "")
    (h2 : pyStartsWith u "postgresql://" = false)
    (h3 : pyStartsWith u "postgres://" = false) :
    getDefaultBackend none = .ok .inMemory
    ∧ getDefaultBackend (some w) = .ok (.postgres w)
    ∧ getDefaultBackend (some u) = .error ("Unknown state backend URL scheme: " ++ u ++
        ". Supported: postgresql://, postgres://") := by
  refine ⟨rfl, ?_, ?_⟩
  · have hw' : w ≠ "" := by
      rcases hw with hw | hw <;>
        · intro he
          subst he
          simp [pyStartsWith, List.isPrefixOf] at hw
    rcases hw with hw | hw <;> simp [getDefaultBackend, hw, hw']
  · simp [getDefaultBackend, h1, h2, h3]

/-- C8 witness: selection evaluated at a concrete postgres URL and a
concrete unknown scheme. -/
theorem c8_backend_selection_witness :
    (pyStartsWith "redis://host:6379" "postgresql://" = false
      ∧ pyStartsWith "redis://host:6379" "postgres://" = false
      ∧ pyStartsWith "postgresql://db" "postgresql://" = true)
    ∧ (getDefaultBackend none = .ok .inMemory
      ∧ getDefaultBackend (some "postgresql://db") = .ok (.postgres "postgresql://db")
      ∧ getDefaultBackend (some "redis://host:6379")
          = .error ("Unknown state backend URL scheme: " ++ "redis://host:6379" ++
              ". Supported: postgresql://, postgres://")) :=
  ⟨⟨by decide, by decide, by decide⟩,
    c8_backend_selection "redis://host:6379" "postgresql://db"
      (Or.inl (by decide)) (by decide) (by decide) (by decide)⟩

/-- Python truthiness on an optional string: None and the empty string
are falsy. -/
def pyTruthy (o : Option String) : Option String :=
  match o with
  | some s => if s = "" then none else some s
  | none => none

/-- Python str(x) for an optional string as an f-string renders it: None
prints as "None". -/
def pyShowOpt : Option String → String
  | some s => s
  | none => "None"

/-- A JSON-schema entry of one property, as filtered_list_tools
(src/__init__.py) builds it for the synthetic tools. -/
structure MCPPropertySchema where
  type : String
  title : String
  description : String
  enum : Option (List String)
deriving DecidableEq

/-- The inputSchema object of an MCP tool, as filtered_list_tools builds it. -/
structure MCPInputSchema where
  type : String
  title : String
  description : String
  properties : PyDict MCPPropertySchema
  required : List String
  additionalProperties : Bool
deriving DecidableEq

/-- An MCP tool entry as returned by list_tools: name, description and
input schema (mcp.types.Tool). -/
structure MCPTool where
  name : String
  description : String
  inputSchema : MCPInputSchema
deriving DecidableEq

/-- The Concierge server of src/__init__.py, restricted to the fields the
staged-tool logic reads: the stages dict (stage name to tool names), the
transitions dict (stage name to allowed next stages), the default stage,
the state backend, and the tools registered on the underlying server
(what original_list_tools returns, after _setup_staged_tools also
registered the two synthetic tools). -/
structure Concierge (V : Type) where
  stages : PyDict (List String)
  transitions : PyDict (List String)
  defaultStage : Option String
  state : InMemoryBackend V
  registeredTools : List MCPTool
deriving DecidableEq

/-- Concierge._get_session_stage: the backend's stage for a truthy session
id when set, else self._default_stage or the first stage key; none models
the IndexError when there is no stage at all. -/
def Concierge.sessionStageOf {V : Type} (c : Concierge V) (sessionId : Option String) :
    Option String :=
  let fromBackend : Option String :=
    match pyTruthy sessionId with
    | some s => pyTruthy (c.state.getSessionStage s)
    | none => none
  match fromBackend with
  | some stage => some stage
  | none =>
      match pyTruthy c.defaultStage with
      | some d => some d
      | none => (dictKeys c.stages).head?

/-- Concierge._set_session_stage: writes the backend only for a truthy
session id. -/
def Concierge.setSessionStageOf {V : Type} (c : Concierge V) (sessionId : Option String)
    (stage : String) : Concierge V :=
  match pyTruthy sessionId with
  | some s => { c with state := c.state.setSessionStage s stage }
  | none => c

/-- Concierge._is_terminal_stage: no outgoing transitions. -/
def Concierge.isTerminalStage {V : Type} (c : Concierge V) (stage : String) : Bool :=
  ((dictGet c.transitions stage).getD []) = []

/-- The ", ".join of quoted stage names used in the synthetic tool texts
(src/__init__.py, filtered_list_tools). -/
def stageListStr (stages : List String) : String :=
  String.intercalate ", " (stages.map (fun s => "'" ++ s ++ "'"))

/-- The proceed_to_next_stage entry that filtered_list_tools appends when
the current stage has outgoing transitions. -/
def proceedToNextStageTool (currentStage : String) (nextStages : List String) : MCPTool :=
  { name := "proceed_to_next_stage"
    description := "Proceed to the next available stage in the workflow. " ++
      "This will unlock a new set of tools and allow you to continue. " ++
      "Currently in stage '" ++ currentStage ++ "'. " ++
      "Available stages to proceed to: " ++ stageListStr nextStages ++ "."
    inputSchema :=
      { type := "object"
        title := "StageTransitionRequest"
        description := "Request to transition to a different stage in the workflow."
        properties := [("target_stage",
          { type := "string"
            title := "Target Stage"
            description := "The name of the stage to transition to. " ++
              "Must be one of the available stages: " ++ stageListStr nextStages ++ "."
            enum := some nextStages })]
        required := ["target_stage"]
        additionalProperties := false } }

/-- The terminate_session entry that filtered_list_tools always appends. -/
def terminateSessionTool : MCPTool :=
  { name := "terminate_session"
    description := "Terminate the current workflow session and reset to the beginning. " ++
      "You should typically call this when: (1) the user wants to start over, " ++
      "(2) the user changes their mind and wants to do something different, " ++
      "(3) the user explicitly asks to stop/cancel/abort, or " ++
      "(4) you have completed the workflow and the user indicates they are done."
    inputSchema :=
      { type := "object"
        title := "TerminateSessionRequest"
        description := "Request to terminate the current workflow session."
        properties := []
        required := []
        additionalProperties := false } }

/-- filtered_list_tools of src/__init__.py: the registered tools of the
current stage with the stage tag added to their descriptions, then
proceed_to_next_stage when the stage has outgoing transitions, then
terminate_session; none models the IndexError when no stage resolves. -/
def Concierge.filteredListTools {V : Type} (c : Concierge V) (sessionId : Option String) :
    Option (List MCPTool) :=
  match c.sessionStageOf sessionId with
  | none => none
  | some currentStage =>
      let toolNames := (dictGet c.stages currentStage).getD []
      let nextStages := (dictGet c.transitions currentStage).getD []
      let visible := (c.registeredTools.filter (fun t => decide (t.name ∈ toolNames))).map
        (fun t => { t with description := "[" ++ currentStage ++ "] " ++ t.description })
      let visible :=
        if nextStages = [] then visible
        else visible ++ [proceedToNextStageTool currentStage nextStages]
      some (visible ++ [terminateSessionTool])

/-- The dict returned by _handle_next_stage (src/__init__.py): either the
error dict with the allowed transitions, or the transitioned dict. -/
inductive NextStageResp where
  | errorResp (error : String) (allowedTransitions : List String) (currentStage : String)
  | transitionedResp (fromStage toStage message instruction : String)
deriving DecidableEq

/-- DEFAULT_WORKFLOW_INSTRUCTIONS of src/__init__.py (after .strip()). -/
def defaultWorkflowInstructions : String :=
  "You are interacting with workflow which is self discoverable. This server unlocks new tools as you progress through the workflow.\n" ++
  "You must ensure to call the relevant tools wherever applicable. Do not terminate early, the workflow will indicate when no more stages or tools are available. Do not assume you are done, unless the tools/workflow indicates this.\n" ++
  "You are an autonomous agent performing long running tasks on the workflow. Only interrupt to ask the user if a tool requires SPECIFIC input that you dont have or need more clarity about. DO NOT ASSUME ANY DETAIL, pause and ask use when unsure.\n" ++
  "Trust the workflow, the workflow is self-describing. Each stage transition reveals new capabilities. Your goal is to reach the terminal stage by executing tools and navigating stages."

/-- The stage instruction used by _handle_next_stage for a terminal target. -/
def terminalStageInstruction : String :=
  "TERMINAL STAGE REACHED. No further transitions available. " ++
  "Execute remaining tools in this stage, then provide your final summary."

/-- The stage instruction used by _handle_next_stage for a non-terminal target. -/
def nonTerminalStageInstruction : String :=
  "STAGE TRANSITIONED. New tools are now available. " ++
  "Continue executing tools and transitioning until you reach the terminal stage."

/-- _handle_next_stage of src/__init__.py: reject a target outside the
current stage's allowed transitions, otherwise record the new stage for
the session and answer with the transitioned dict (the tool_list_changed
notification is protocol traffic and carries no state). -/
def Concierge.handleNextStage {V : Type} (c : Concierge V) (sessionId : Option String)
    (targetStage : String) : Option (NextStageResp × Concierge V) :=
  match c.sessionStageOf sessionId with
  | none => none
  | some current =>
      let allowed := (dictGet c.transitions current).getD []
      if targetStage ∈ allowed then
        let c' := c.setSessionStageOf sessionId targetStage
        let stageInstruction :=
          if c'.isTerminalStage targetStage then terminalStageInstruction
          else nonTerminalStageInstruction
        some (.transitionedResp current targetStage
          ("Successfully transitioned from '" ++ current ++ "' to '" ++ targetStage ++ "'.")
          (defaultWorkflowInstructions ++ "\n\n" ++ stageInstruction), c')
      else
        some (.errorResp ("Cannot transition from '" ++ current ++ "' to '" ++ targetStage ++ "'")
          allowed current, c)

/-- The dict returned by _handle_terminate_session (src/__init__.py). -/
structure TerminateResp where
  status : String
  previousStage : String
  message : String
deriving DecidableEq

/-- _handle_terminate_session of src/__init__.py: read the current stage,
clear the backend for a truthy session id, and acknowledge with the
previous stage and the reset target (the default stage; an f-string
renders a missing one as "None"). -/
def Concierge.handleTerminateSession {V : Type} (c : Concierge V)
    (sessionId : Option String) : Option (TerminateResp × Concierge V) :=
  match c.sessionStageOf sessionId with
  | none => none
  | some current =>
      let c' :=
        match pyTruthy sessionId with
        | some s => { c with state := c.state.clearSession s }
        | none => c
      some ({ status := "terminated"
              previousStage := current
              message := "Session terminated. Workflow and state reset from '" ++ current ++
                "' to initial stage '" ++ pyShowOpt c.defaultStage ++
                "'. You can now start a fresh workflow or switch to a different task." }, c')

/-- C2: list_tools for a session returns exactly the current stage's
tools, their descriptions tagged with the stage name, plus
terminate_session unconditionally, plus proceed_to_next_stage exactly when
the current stage has allowed transitions, whose schema declares the
single required target_stage field with the allowed transitions as its
enum. Hypotheses: every stage tool name is registered on the server, and
the stage's tool list does not reuse the two synthetic names. -/
theorem c2_list_tools_staged {V : Type} (c : Concierge V) (sid : Option String)
    (cur : String) (L : List MCPTool)
    (hcur : c.sessionStageOf sid = some cur)
    (hL : c.filteredListTools sid = some L)
    (hreg : ∀ n ∈ (dictGet c.stages cur).getD [], ∃ t ∈ c.registeredTools, t.name = n)
    (hp : "proceed_to_next_stage" ∉ (dictGet c.stages cur).getD [])
    (ht : "terminate_session" ∉ (dictGet c.stages cur).getD []) :
    (∀ n : String, (∃ t ∈ L, t.name = n) ↔
        (n ∈ (dictGet c.stages cur).getD []
          ∨ n = "terminate_session"
          ∨ (n = "proceed_to_next_stage" ∧ (dictGet c.transitions cur).getD [] ≠ [])))
    ∧ (∀ t ∈ L, t.name ∈ (dictGet c.stages cur).getD [] →
        ∃ t0 ∈ c.registeredTools, t0.name = t.name
          ∧ t.description = "[" ++ cur ++ "] " ++ t0.description)
    ∧ ((dictGet c.transitions cur).getD [] ≠ [] →
        proceedToNextStageTool cur ((dictGet c.transitions cur).getD []) ∈ L)
    ∧ (proceedToNextStageTool cur ((dictGet c.transitions cur).getD [])).inputSchema.required
        = ["target_stage"]
    ∧ dictKeys (proceedToNextStageTool cur ((dictGet c.transitions cur).getD [])).inputSchema.properties
        = ["target_stage"]
    ∧ (dictGet (proceedToNextStageTool cur ((dictGet c.transitions cur).getD [])).inputSchema.properties
          "target_stage").map MCPPropertySchema.enum
        = some (some ((dictGet c.transitions cur).getD []))
    ∧ terminateSessionTool ∈ L := by
  simp only [Concierge.filteredListTools, hcur] at hL
  have hLeq := Option.some.inj hL
  subst hLeq
  refine ⟨?_, ?_, ?_, ?_, ?_, ?_, ?_⟩
  · intro n
    constructor
    · rintro ⟨t, ht', rfl⟩
      rcases List.mem_append.mp ht' with hmem | hterm
      · by_cases hnil : (dictGet c.transitions cur).getD [] = []
        · rw [if_pos hnil] at hmem
          obtain ⟨t0, ht0, rfl⟩ := List.mem_map.mp hmem
          have h2 := (List.mem_filter.mp ht0).2
          exact Or.inl (by simpa using h2)
        · rw [if_neg hnil] at hmem
          rcases List.mem_append.mp hmem with hmem | hproc
          · obtain ⟨t0, ht0, rfl⟩ := List.mem_map.mp hmem
            have h2 := (List.mem_filter.mp ht0).2
            exact Or.inl (by simpa using h2)
          · have heq : t = proceedToNextStageTool cur ((dictGet c.transitions cur).getD []) := by
              simpa using hproc
            subst heq
            exact Or.inr (Or.inr ⟨rfl, hnil⟩)
      · have heq : t = terminateSessionTool := by simpa using hterm
        subst heq
        exact Or.inr (Or.inl rfl)
    · rintro (hn | rfl | ⟨rfl, hnil⟩)
      · obtain ⟨t0, ht0, rfl⟩ := hreg _ hn
        refine ⟨{ t0 with description := "[" ++ cur ++ "] " ++ t0.description },
          ?_, rfl⟩
        apply List.mem_append.mpr
        left
        have hf : { t0 with description := "[" ++ cur ++ "] " ++ t0.description } ∈
            (c.registeredTools.filter
              (fun t => decide (t.name ∈ (dictGet c.stages cur).getD []))).map
              (fun t => { t with description := "[" ++ cur ++ "] " ++ t.description }) :=
          List.mem_map.mpr ⟨t0, List.mem_filter.mpr ⟨ht0, by simpa using hn⟩, rfl⟩
        by_cases hnil : (dictGet c.transitions cur).getD [] = []
        · rw [if_pos hnil]
          exact hf
        · rw [if_neg hnil]
          exact List.mem_append.mpr (Or.inl hf)
      · exact ⟨terminateSessionTool, List.mem_append.mpr (Or.inr (by simp)), rfl⟩
      · refine ⟨proceedToNextStageTool cur ((dictGet c.transitions cur).getD []), ?_, rfl⟩
        apply List.mem_append.mpr
        left
        rw [if_neg hnil]
        exact List.mem_append.mpr (Or.inr (by simp))
  · intro t ht' hname
    rcases List.mem_append.mp ht' with hmem | hterm
    · have hfil : t ∈ (c.registeredTools.filter
          (fun t => decide (t.name ∈ (dictGet c.stages cur).getD []))).map
          (fun t => { t with description := "[" ++ cur ++ "] " ++ t.description }) := by
        by_cases hnil : (dictGet c.transitions cur).getD [] = []
        · rwa [if_pos hnil] at hmem
        · rw [if_neg hnil] at hmem
          rcases List.mem_append.mp hmem with hmem | hproc
          · exact hmem
          · have heq : t = proceedToNextStageTool cur ((dictGet c.transitions cur).getD []) := by
              simpa using hproc
            rw [heq] at hname
            exact absurd hname hp
      obtain ⟨t0, ht0, rfl⟩ := List.mem_map.mp hfil
      exact ⟨t0, (List.mem_filter.mp ht0).1, rfl, rfl⟩
    · have heq : t = terminateSessionTool := by simpa using hterm
      rw [heq] at hname
      exact absurd hname ht
  · intro hnil
    apply List.mem_append.mpr
    left
    rw [if_neg hnil]
    exact List.mem_append.mpr (Or.inr (by simp))
  · rfl
  · rfl
  · simp [proceedToNextStageTool, dictGet]
  · exact List.mem_append.mpr (Or.inr (by simp))

/-- A placeholder input schema for registered user tools (the real ones
are derived by the MCP library from handler signatures). -/
def dummySchemaEx : MCPInputSchema :=
  { type := "object", title := "", description := "", properties := [],
    required := [], additionalProperties := false }

/-- A concrete staged server in the shape of examples/simple_stock.py:
stage browse owns search, stage transact owns buy, browse may proceed to
transact, transact is terminal; all four tools (two user tools and the two
synthetic handlers) are registered on the underlying server. -/
def conciergeEx : Concierge Nat :=
  { stages := [("browse", ["search"]), ("transact", ["buy"])]
    transitions := [("browse", ["transact"]), ("transact", [])]
    defaultStage := some "browse"
    state := InMemoryBackend.empty Nat
    registeredTools :=
      [ { name := "search", description := "Search for a stock", inputSchema := dummySchemaEx },
        { name := "buy", description := "Buy the selected stock", inputSchema := dummySchemaEx },
        { name := "proceed_to_next_stage",
          description := "Proceed to the next available stage in the workflow, unlocking a new set of tools.",
          inputSchema := dummySchemaEx },
        { name := "terminate_session",
          description := "Terminate the current workflow session and reset to the beginning.",
          inputSchema := dummySchemaEx } ] }

/-- The tool list that filtered_list_tools produces for a fresh session of
the concrete server. -/
def listedToolsEx : List MCPTool :=
  [ { name := "search", description := "[browse] Search for a stock",
      inputSchema := dummySchemaEx },
    proceedToNextStageTool "browse" ["transact"],
    terminateSessionTool ]

/-- C2 witness: the staged tool listing evaluated for a fresh session on
the concrete server: search tagged with the stage, proceed_to_next_stage
with enum [transact], terminate_session last. -/
theorem c2_list_tools_staged_witness :
    (conciergeEx.sessionStageOf (some "A") = some "browse"
      ∧ conciergeEx.filteredListTools (some "A") = some listedToolsEx
      ∧ (∀ n ∈ (dictGet conciergeEx.stages "browse").getD [],
          ∃ t ∈ conciergeEx.registeredTools, t.name = n)
      ∧ "proceed_to_next_stage" ∉ (dictGet conciergeEx.stages "browse").getD []
      ∧ "terminate_session" ∉ (dictGet conciergeEx.stages "browse").getD [])
    ∧ ((∀ n : String, (∃ t ∈ listedToolsEx, t.name = n) ↔
        (n ∈ (dictGet conciergeEx.stages "browse").getD []
          ∨ n = "terminate_session"
          ∨ (n = "proceed_to_next_stage" ∧ (dictGet conciergeEx.transitions "browse").getD [] ≠ [])))
    ∧ (∀ t ∈ listedToolsEx, t.name ∈ (dictGet conciergeEx.stages "browse").getD [] →
        ∃ t0 ∈ conciergeEx.registeredTools, t0.name = t.name
          ∧ t.description = "[" ++ "browse" ++ "] " ++ t0.description)
    ∧ ((dictGet conciergeEx.transitions "browse").getD [] ≠ [] →
        proceedToNextStageTool "browse" ((dictGet conciergeEx.transitions "browse").getD [])
          ∈ listedToolsEx)
    ∧ (proceedToNextStageTool "browse" ((dictGet conciergeEx.transitions "browse").getD [])).inputSchema.required
        = ["target_stage"]
    ∧ dictKeys (proceedToNextStageTool "browse" ((dictGet conciergeEx.transitions "browse").getD [])).inputSchema.properties
        = ["target_stage"]
    ∧ (dictGet (proceedToNextStageTool "browse" ((dictGet conciergeEx.transitions "browse").getD [])).inputSchema.properties
          "target_stage").map MCPPropertySchema.enum
        = some (some ((dictGet conciergeEx.transitions "browse").getD []))
    ∧ terminateSessionTool ∈ listedToolsEx) :=
  ⟨⟨by decide, by decide, by decide, by decide, by decide⟩,
    c2_list_tools_staged conciergeEx (some "A") "browse" listedToolsEx
      (by decide) (by decide) (by decide) (by decide) (by decide)⟩

/-- C5: terminate_session answers with status terminated, the stage the
session was in and a message, and clears both the stage and every state
key of that session in the backend. -/
theorem c5_terminate_session {V : Type} (c : Concierge V) (s cur : String)
    (hs : s ≠ "") (hcur : c.sessionStageOf (some s) = some cur) :
    ∃ c' : Concierge V,
      c.handleTerminateSession (some s) = some
        ({ status := "terminated"
           previousStage := cur
           message := "Session terminated. Workflow and state reset from '" ++ cur ++
             "' to initial stage '" ++ pyShowOpt c.defaultStage ++
             "'. You can now start a fresh workflow or switch to a different task." }, c')
      ∧ c'.state.getSessionStage s = none
      ∧ ∀ k, c'.state.getState s k = none := by
  refine ⟨{ c with state := c.state.clearSession s }, ?_, ?_, ?_⟩
  · simp [Concierge.handleTerminateSession, hcur, pyTruthy, hs]
  · simp [InMemoryBackend.clearSession, InMemoryBackend.getSessionStage,
      dictGet_dictPop_self]
  · intro k
    simp [InMemoryBackend.clearSession, InMemoryBackend.getState,
      dictGet_dictPop_self, dictGet]

/-- C5 witness: termination evaluated on the concrete server for a session
that had advanced to transact and stored a key. -/
theorem c5_terminate_session_witness :
    (("A" : String) ≠ ""
      ∧ ({ conciergeEx with
            state := ((conciergeEx.state.setSessionStage "A" "transact").setState "A" "symbol" 7) } :
          Concierge Nat).sessionStageOf (some "A") = some "transact")
    ∧ ∃ c' : Concierge Nat,
        ({ conciergeEx with
            state := ((conciergeEx.state.setSessionStage "A" "transact").setState "A" "symbol" 7) } :
          Concierge Nat).handleTerminateSession (some "A") = some
          ({ status := "terminated"
             previousStage := "transact"
             message := "Session terminated. Workflow and state reset from '" ++ "transact" ++
               "' to initial stage '" ++ pyShowOpt ({ conciergeEx with
                  state := ((conciergeEx.state.setSessionStage "A" "transact").setState "A" "symbol" 7) } :
                Concierge Nat).defaultStage ++
               "'. You can now start a fresh workflow or switch to a different task." }, c')
        ∧ c'.state.getSessionStage "A" = none
        ∧ ∀ k, c'.state.getState "A" k = none :=
  ⟨⟨by decide, by decide⟩,
    c5_terminate_session
      ({ conciergeEx with
          state := ((conciergeEx.state.setSessionStage "A" "transact").setState "A" "symbol" 7) } :
        Concierge Nat)
      "A" "transact" (by decide) (by decide)⟩

/-- A tool handler held by a stage. Modelled from the spec: Tool is a
handler over the stage-scoped session state; its execution may update that
state, return a result value, or raise (Except.error). The concrete class
lives in concierge/core/stage.py, which is not part of the repository
snapshot. -/
structure ToolDef (V : Type) where
  name : String
  run : PyDict V → PyDict V → Except String (V × PyDict V)

/-- Modelled from the spec: concierge.core.stage.Stage is imported by
src/concierge/core/workflow.py and orchestrator.py but its module is not
in the repository snapshot. Per the spec's data model a stage carries a
name, a mapping from tool name to tool, the allowed outbound transitions,
the entry prerequisites (state-key names), per-stage local state, and an
entry-prompt generator. -/
structure Stage (V : Type) where
  name : String
  tools : PyDict (ToolDef V)
  transitions : List String
  prerequisites : List String
  localState : PyDict V
  generatePrompt : PyDict V → String

/-- Modelled from the spec: Stage.can_transition_to is a pure lookup in
the allowed transitions. -/
def Stage.canTransitionTo {V : Type} (st : Stage V) (target : String) : Bool :=
  decide (target ∈ st.transitions)

/-- Modelled from the spec: Stage.get_missing_prerequisites returns the
prerequisite keys absent from the given state, in declaration order. -/
def Stage.getMissingPrerequisites {V : Type} (st : Stage V) (globalState : PyDict V) :
    List String :=
  st.prerequisites.filter (fun k => (dictGet globalState k).isNone)

/-- The workflow blueprint of src/concierge/core/workflow.py: stages dict
and designated initial stage. -/
structure Workflow (V : Type) where
  name : String
  description : String
  stages : PyDict (Stage V)
  initialStage : Option String

/-- Workflow.add_stage: register the stage under its name; it becomes the
initial stage when asked to or when none is set yet. -/
def Workflow.addStage {V : Type} (w : Workflow V) (st : Stage V) (initial : Bool) :
    Workflow V :=
  { w with stages := dictSet w.stages st.name st
           initialStage :=
             if initial || w.initialStage.isNone then some st.name else w.initialStage }

/-- Workflow.get_stage: raises ValueError for an unknown stage name. -/
def Workflow.getStage {V : Type} (w : Workflow V) (stageName : String) :
    Except String (Stage V) :=
  match dictGet w.stages stageName with
  | some st => .ok st
  | none => .error ("Stage '" ++ stageName ++ "' not found in workflow '" ++ w.name ++ "'")

/-- The response dicts produced by Workflow.call_tool and
Orchestrator.process_action, one constructor per dict shape. -/
inductive Resp (V : Type) where
  | toolResult (tool : String) (result : V)
  | toolNotFound (message : String) (available : List String)
  | toolError (tool : String) (error : String)
  | elicitRequired (message : String) (missing : List String)
  | invalidTransition (message : String) (allowed : List String)
  | transitioned (fromStage toStage prompt : String)
  | elicitResp (field : Option String) (message : String)
  | respondResp (message : String)
  | unknownAction (message : String)

/-- The "type" entry of each response dict. Three shapes share the tag
"error": the tool-not-found dict of Workflow.call_tool, the invalid
transition dict, and the unknown-action dict. -/
def Resp.typeTag {V : Type} : Resp V → String
  | .toolResult _ _ => "tool_result"
  | .toolNotFound _ _ => "error"
  | .toolError _ _ => "tool_error"
  | .elicitRequired _ _ => "elicit_required"
  | .invalidTransition _ _ => "error"
  | .transitioned _ _ _ => "transitioned"
  | .elicitResp _ _ => "elicit"
  | .respondResp _ => "response"
  | .unknownAction _ => "error"

/-- Workflow.call_tool: look the stage up (ValueError propagates), reject
a tool name that is not in the stage with the error dict listing the
stage's tools, run the handler on the stage's local state (an exception
becomes the tool_error dict), and keep the handler's state update. -/
def Workflow.callTool {V : Type} (w : Workflow V) (stageName toolName : String)
    (args : PyDict V) : Except String (Resp V × Workflow V) := do
  let stage ← w.getStage stageName
  match dictGet stage.tools toolName with
  | none =>
      pure (.toolNotFound ("Tool '" ++ toolName ++ "' not found in stage '" ++ stageName ++ "'")
        (dictKeys stage.tools), w)
  | some tool =>
      match tool.run stage.localState args with
      | .ok (result, newLocal) =>
          pure (.toolResult toolName result,
            { w with stages := dictSet w.stages stageName { stage with localState := newLocal } })
      | .error e => pure (.toolError toolName e, w)

/-- Workflow.can_transition: delegate to the source stage's lookup. -/
def Workflow.canTransition {V : Type} (w : Workflow V) (fromStage toStage : String) :
    Except String Bool := do
  let st ← w.getStage fromStage
  pure (st.canTransitionTo toStage)

/-- The dict returned by Workflow.validate_transition, one constructor per
shape. -/
inductive ValidationResult where
  | valid
  | invalidAdjacency (error : String) (allowed : List String)
  | missingPrereqs (error : String) (missing : List String)
deriving DecidableEq

/-- Python repr of a list of strings, as an f-string renders the missing
list in validate_transition's error message. -/
def pyListRepr (xs : List String) : String :=
  "[" ++ String.intercalate ", " (xs.map (fun s => "'" ++ s ++ "'")) ++ "]"

/-- Workflow.validate_transition: adjacency first (with the allowed list
on failure), then the target stage's prerequisites against the global
state (with the missing list on failure). A dangling target raises
get_stage's ValueError. -/
def Workflow.validateTransition {V : Type} (w : Workflow V) (fromStage toStage : String)
    (globalState : PyDict V) : Except String ValidationResult := do
  let ok ← w.canTransition fromStage toStage
  if !ok then
    let fromSt ← w.getStage fromStage
    pure (.invalidAdjacency ("Cannot transition from '" ++ fromStage ++ "' to '" ++ toStage ++ "'")
      fromSt.transitions)
  else
    let target ← w.getStage toStage
    let missing := target.getMissingPrerequisites globalState
    if missing = [] then pure .valid
    else
      pure (.missingPrereqs ("Stage '" ++ toStage ++ "' requires: " ++ pyListRepr missing)
        missing)

/-- A history record appended by the orchestrator. -/
inductive HistoryEntry (V : Type) where
  | toolEntry (tool : String) (args : PyDict V) (result : V)
  | transitionEntry (fromStage toStage : String)

/-- The per-session orchestrator of
src/concierge/core/engine/orchestrator.py: cursor over a workflow, global
session state (concierge.core.state.State, modelled from the spec as a
key/value dict) and history. -/
structure Orchestrator (V : Type) where
  workflow : Workflow V
  sessionId : String
  currentStage : String
  state : PyDict V
  history : List (HistoryEntry V)

/-- Orchestrator.__post_init__: cursor at the workflow's initial stage or,
through Python or-chaining, the first stage key; none models the
IndexError on a workflow with no stages. -/
def Orchestrator.init {V : Type} (w : Workflow V) (sessionId : String) :
    Option (Orchestrator V) :=
  let start :=
    match pyTruthy w.initialStage with
    | some s => some s
    | none => (dictKeys w.stages).head?
  start.map (fun s => { workflow := w, sessionId, currentStage := s, state := [], history := [] })

/-- The tagged action record accepted by Orchestrator.process_action.
otherAct covers every record whose "action" entry is not one of the four
known tags (none models a missing or non-string entry, rendered "None"). -/
inductive ActionRecord (V : Type) where
  | toolAct (tool : String) (args : PyDict V)
  | transitionAct (stage : String)
  | elicitAct (field : Option String) (message : Option String)
  | respondAct (message : String)
  | otherAct (tag : Option String)

/-- Orchestrator._handle_tool_action: delegate to Workflow.call_tool on
the current stage; append a history record only for a tool_result. -/
def Orchestrator.handleToolAction {V : Type} (o : Orchestrator V) (toolName : String)
    (args : PyDict V) : Except String (Resp V × Orchestrator V) := do
  let (result, w') ← o.workflow.callTool o.currentStage toolName args
  match result with
  | .toolResult t r =>
      pure (result,
        { o with
            workflow := w'
            history := o.history ++ [.toolEntry t args r] })
  | _ => pure (result, { o with workflow := w' })

/-- Orchestrator._handle_transition: validate through the workflow; on
missing prerequisites answer elicit_required, on a bad target answer the
error dict with the allowed list, both leaving the session untouched; on
valid reset the target stage's local state to a fresh empty State, move
the cursor, append the transition record and answer transitioned with the
target's entry prompt. -/
def Orchestrator.handleTransition {V : Type} (o : Orchestrator V) (stage : Stage V)
    (targetName : String) : Except String (Resp V × Orchestrator V) := do
  let validation ← o.workflow.validateTransition o.currentStage targetName o.state
  match validation with
  | .missingPrereqs err missing => pure (.elicitRequired err missing, o)
  | .invalidAdjacency err allowed => pure (.invalidTransition err allowed, o)
  | .valid => do
      let target ← o.workflow.getStage targetName
      let target' := { target with localState := [] }
      pure (.transitioned stage.name targetName (target'.generatePrompt target'.localState),
        { o with
            workflow := { o.workflow with stages := dictSet o.workflow.stages targetName target' }
            currentStage := targetName
            history := o.history ++ [.transitionEntry stage.name targetName] })

/-- Orchestrator.process_action: fetch the current stage object first
(KeyError propagates), then dispatch on the action tag; an unknown tag
answers the error dict naming it and changes nothing. -/
def Orchestrator.processAction {V : Type} (o : Orchestrator V) (action : ActionRecord V) :
    Except String (Resp V × Orchestrator V) := do
  let stage ←
    match dictGet o.workflow.stages o.currentStage with
    | some st => Except.ok st
    | none => Except.error ("KeyError: '" ++ o.currentStage ++ "'")
  match action with
  | .toolAct t args => o.handleToolAction t args
  | .transitionAct s => o.handleTransition stage s
  | .elicitAct f m =>
      pure (.elicitResp f (m.getD ("Please provide: " ++ pyShowOpt f)), o)
  | .respondAct m => pure (.respondResp m, o)
  | .otherAct tag =>
      pure (.unknownAction ("Unknown action type: " ++ pyShowOpt tag), o)

/-- Modelled from the spec: the TransitionPolicy of the data model —
ISOLATE gives a fresh empty state, TRANSFER(keys) copies the listed keys,
TRANSFER_ALL copies everything. No such type exists anywhere in the
repository snapshot; the spec declares it as consulted on every
transition. -/
inductive TransitionPolicy where
  | isolate
  | transferKeys (keys : List String)
  | transferAll
deriving DecidableEq

/-- Modelled from the spec: the projection of the outgoing state into the
new stage's local state under a transition policy. -/
def applyTransitionPolicy {V : Type} (p : TransitionPolicy) (outgoing : PyDict V) :
    PyDict V :=
  match p with
  | .isolate => []
  | .transferKeys keys => outgoing.filter (fun kv => decide (kv.1 ∈ keys))
  | .transferAll => outgoing

/-- The workflow class decorator of src/concierge/core/workflow.py
(workflow.__call__), for the string-keyed transitions form its docstring
documents: stages are registered in declaration order (first is initial);
each transitions entry whose source is a registered stage overwrites that
stage's transitions verbatim — target names are not checked against the
declared stages, and entries for unregistered sources are silently
dropped. -/
def buildWorkflow {V : Type} (name description : String) (stageDefs : List (Stage V))
    (transitionsDef : Option (PyDict (List String))) : Workflow V :=
  let w0 : Workflow V := { name, description, stages := [], initialStage := none }
  let w1 := stageDefs.foldl (fun w st => w.addStage st w.stages.isEmpty) w0
  match transitionsDef with
  | none => w1
  | some tdef =>
      tdef.foldl (fun w p =>
        match dictGet w.stages p.1 with
        | some st => { w with stages := dictSet w.stages p.1 { st with transitions := p.2 } }
        | none => w) w1


theorem exceptBind_ok {ε α β : Type} (a : α) (f : α → Except ε β) :
    (Except.ok a : Except ε α) >>= f = f a := rfl

theorem exceptBind_error {ε α β : Type} (e : ε) (f : α → Except ε β) :
    (Except.error e : Except ε α) >>= f = Except.error e := rfl

theorem exceptMap_ok {ε α β : Type} (a : α) (f : α → β) :
    f <$> (Except.ok a : Except ε α) = Except.ok (f a) := rfl

theorem exceptMap_error {ε α β : Type} (e : ε) (f : α → β) :
    f <$> (Except.error e : Except ε α) = Except.error e := rfl

theorem exceptPure {ε α : Type} (a : α) :
    (pure a : Except ε α) = Except.ok a := rfl

theorem processAction_transitionAct {V : Type} (o : Orchestrator V) (target : String)
    (stage : Stage V) (hst : dictGet o.workflow.stages o.currentStage = some stage) :
    o.processAction (.transitionAct target) = o.handleTransition stage target := by
  simp [Orchestrator.processAction, hst, exceptBind_ok]

theorem handleTransition_notAdjacent {V : Type} (o : Orchestrator V) (stage : Stage V)
    (target : String) (hst : dictGet o.workflow.stages o.currentStage = some stage)
    (hb : stage.canTransitionTo target = false) :
    o.handleTransition stage target =
      .ok (.invalidTransition
        ("Cannot transition from '" ++ o.currentStage ++ "' to '" ++ target ++ "'")
        stage.transitions, o) := by
  simp [Orchestrator.handleTransition, Workflow.validateTransition, Workflow.canTransition,
    Workflow.getStage, hst, hb, exceptBind_ok, exceptBind_error, exceptMap_ok, exceptMap_error, exceptPure]

theorem handleTransition_dangling {V : Type} (o : Orchestrator V) (stage : Stage V)
    (target : String) (hst : dictGet o.workflow.stages o.currentStage = some stage)
    (hb : stage.canTransitionTo target = true)
    (hts : dictGet o.workflow.stages target = none) :
    o.handleTransition stage target =
      .error ("Stage '" ++ target ++ "' not found in workflow '" ++ o.workflow.name ++ "'") := by
  simp [Orchestrator.handleTransition, Workflow.validateTransition, Workflow.canTransition,
    Workflow.getStage, hst, hb, hts, exceptBind_ok, exceptBind_error, exceptMap_ok, exceptMap_error, exceptPure]

theorem handleTransition_missingPrereqs {V : Type} (o : Orchestrator V) (stage tstage : Stage V)
    (target : String) (hst : dictGet o.workflow.stages o.currentStage = some stage)
    (hb : stage.canTransitionTo target = true)
    (hts : dictGet o.workflow.stages target = some tstage)
    (hm : tstage.getMissingPrerequisites o.state ≠ []) :
    o.handleTransition stage target =
      .ok (.elicitRequired
        ("Stage '" ++ target ++ "' requires: " ++ pyListRepr (tstage.getMissingPrerequisites o.state))
        (tstage.getMissingPrerequisites o.state), o) := by
  simp [Orchestrator.handleTransition, Workflow.validateTransition, Workflow.canTransition,
    Workflow.getStage, hst, hb, hts, hm, exceptBind_ok, exceptBind_error, exceptMap_ok, exceptMap_error, exceptPure]

theorem handleTransition_valid {V : Type} (o : Orchestrator V) (stage tstage : Stage V)
    (target : String) (hst : dictGet o.workflow.stages o.currentStage = some stage)
    (hb : stage.canTransitionTo target = true)
    (hts : dictGet o.workflow.stages target = some tstage)
    (hm : tstage.getMissingPrerequisites o.state = []) :
    o.handleTransition stage target =
      .ok (.transitioned stage.name target (tstage.generatePrompt []),
        { o with
            workflow := { o.workflow with
              stages := dictSet o.workflow.stages target { tstage with localState := [] } }
            currentStage := target
            history := o.history ++ [.transitionEntry stage.name target] }) := by
  simp [Orchestrator.handleTransition, Workflow.validateTransition, Workflow.canTransition,
    Workflow.getStage, hst, hb, hts, hm, exceptBind_ok, exceptBind_error, exceptMap_ok, exceptMap_error, exceptPure]

/-- C10: an action record whose tag is none of tool, transition, elicit,
respond is answered with the error dict naming the unknown tag, and the
orchestrator (stage, state, history) is returned unchanged. -/
theorem c10_unknown_action_tag {V : Type} (o : Orchestrator V) (tag : Option String)
    (st : Stage V) (hst : dictGet o.workflow.stages o.currentStage = some st) :
    o.processAction (.otherAct tag) =
      .ok (.unknownAction ("Unknown action type: " ++ pyShowOpt tag), o)
    ∧ ((Resp.unknownAction ("Unknown action type: " ++ pyShowOpt tag) : Resp V)).typeTag
        = "error" := by
  constructor
  · simp [Orchestrator.processAction, hst, exceptBind_ok, exceptPure]
  · rfl

/-- A user tool of the concrete engine example whose handler returns 0 and
leaves the local state unchanged. -/
def nopToolDef (nm : String) : ToolDef Nat :=
  { name := nm, run := fun st _ => .ok (0, st) }

/-- The browse stage of the concrete engine example (examples/simple_stock.py). -/
def browseStageEx : Stage Nat :=
  { name := "browse"
    tools := [("search", nopToolDef "search"), ("add_to_cart", nopToolDef "add_to_cart"),
      ("view_history", nopToolDef "view_history")]
    transitions := ["transact", "portfolio"]
    prerequisites := []
    localState := []
    generatePrompt := fun _ => "browse-prompt" }

/-- The transact stage of the concrete engine example: prerequisites
symbol and quantity. -/
def transactStageEx : Stage Nat :=
  { name := "transact"
    tools := [("buy", nopToolDef "buy"), ("sell", nopToolDef "sell")]
    transitions := ["portfolio", "browse"]
    prerequisites := ["symbol", "quantity"]
    localState := []
    generatePrompt := fun _ => "transact-prompt" }

/-- The portfolio stage of the concrete engine example. -/
def portfolioStageEx : Stage Nat :=
  { name := "portfolio"
    tools := [("view_holdings", nopToolDef "view_holdings"),
      ("view_profit", nopToolDef "view_profit")]
    transitions := ["browse"]
    prerequisites := []
    localState := []
    generatePrompt := fun _ => "portfolio-prompt" }

/-- The stock workflow of examples/simple_stock.py. -/
def stockWorkflowEx : Workflow Nat :=
  { name := "stock_exchange"
    description := "Simple stock trading"
    stages := [("browse", browseStageEx), ("transact", transactStageEx),
      ("portfolio", portfolioStageEx)]
    initialStage := some "browse" }

/-- A fresh session of the stock workflow, at browse with empty state. -/
def orchEx : Orchestrator Nat :=
  { workflow := stockWorkflowEx, sessionId := "A", currentStage := "browse",
    state := [], history := [] }

/-- The same session after symbol and quantity have been stored. -/
def orchReadyEx : Orchestrator Nat :=
  { orchEx with state := [("symbol", 7), ("quantity", 2)] }

/-- C10 witness: the unknown tag frobnicate evaluated on the concrete
session leaves it unchanged and names the tag. -/
theorem c10_unknown_action_tag_witness :
    dictGet orchEx.workflow.stages orchEx.currentStage = some browseStageEx
    ∧ (orchEx.processAction (.otherAct (some "frobnicate")) =
        .ok (.unknownAction ("Unknown action type: " ++ pyShowOpt (some "frobnicate")), orchEx)
      ∧ ((Resp.unknownAction ("Unknown action type: " ++ pyShowOpt (some "frobnicate")) : Resp Nat)).typeTag
          = "error") :=
  ⟨rfl, c10_unknown_action_tag orchEx (some "frobnicate") browseStageEx rfl⟩

/-- C3: a transition action succeeds (tag transitioned) only if the target
is in the current stage's allowed transitions and the target stage's
prerequisite keys are all present in the session state; on missing
prerequisites the response is elicit_required carrying the missing keys
and the orchestrator is unchanged; at the MCP layer a transition answer of
transitioned requires the target to be in the current stage's allowed
transitions. -/
theorem c3_transition_guard {V : Type} (o : Orchestrator V) (target : String) :
    (∀ (resp : Resp V) (o' : Orchestrator V),
        o.processAction (.transitionAct target) = .ok (resp, o') →
        resp.typeTag = "transitioned" →
        ∃ stage tstage, dictGet o.workflow.stages o.currentStage = some stage
          ∧ stage.canTransitionTo target = true
          ∧ dictGet o.workflow.stages target = some tstage
          ∧ tstage.getMissingPrerequisites o.state = [])
    ∧ (∀ (stage tstage : Stage V), dictGet o.workflow.stages o.currentStage = some stage →
        stage.canTransitionTo target = true →
        dictGet o.workflow.stages target = some tstage →
        tstage.getMissingPrerequisites o.state ≠ [] →
        o.processAction (.transitionAct target) =
          .ok (.elicitRequired
            ("Stage '" ++ target ++ "' requires: " ++ pyListRepr (tstage.getMissingPrerequisites o.state))
            (tstage.getMissingPrerequisites o.state), o))
    ∧ (∀ (c : Concierge V) (sid : Option String) (resp : NextStageResp) (c' : Concierge V)
        (cur f t m i : String),
        c.handleNextStage sid target = some (resp, c') →
        c.sessionStageOf sid = some cur →
        resp = .transitionedResp f t m i →
        target ∈ (dictGet c.transitions cur).getD []) := by
  refine ⟨?_, ?_, ?_⟩
  · intro resp o' h htag
    cases hst : dictGet o.workflow.stages o.currentStage with
    | none =>
        rw [Orchestrator.processAction] at h
        simp [hst, exceptBind_error] at h
    | some stage =>
        rw [processAction_transitionAct o target stage hst] at h
        by_cases hb : stage.canTransitionTo target = true
        · cases hts : dictGet o.workflow.stages target with
          | none =>
              rw [handleTransition_dangling o stage target hst hb hts] at h
              simp at h
          | some tstage =>
              by_cases hm : tstage.getMissingPrerequisites o.state = []
              · exact ⟨stage, tstage, rfl, hb, rfl, hm⟩
              · rw [handleTransition_missingPrereqs o stage tstage target hst hb hts hm] at h
                simp only [Except.ok.injEq, Prod.mk.injEq] at h
                rw [← h.1] at htag
                simp [Resp.typeTag] at htag
        · rw [handleTransition_notAdjacent o stage target hst (by simpa using hb)] at h
          simp only [Except.ok.injEq, Prod.mk.injEq] at h
          rw [← h.1] at htag
          simp [Resp.typeTag] at htag
  · intro stage tstage hst hb hts hm
    rw [processAction_transitionAct o target stage hst]
    exact handleTransition_missingPrereqs o stage tstage target hst hb hts hm
  · intro c sid resp c' cur f t m i h hcur hresp
    subst hresp
    by_cases hmem : target ∈ (dictGet c.transitions cur).getD []
    · exact hmem
    · simp [Concierge.handleNextStage, hcur, hmem] at h

/-- C3 witness: the guard evaluated on the fresh concrete session and the
target transact (the spec's blocked-transition scenario: missing keys
symbol and quantity). -/
theorem c3_transition_guard_witness :
    (∀ (resp : Resp Nat) (o' : Orchestrator Nat),
        orchEx.processAction (.transitionAct "transact") = .ok (resp, o') →
        resp.typeTag = "transitioned" →
        ∃ stage tstage, dictGet orchEx.workflow.stages orchEx.currentStage = some stage
          ∧ stage.canTransitionTo "transact" = true
          ∧ dictGet orchEx.workflow.stages "transact" = some tstage
          ∧ tstage.getMissingPrerequisites orchEx.state = [])
    ∧ (∀ (stage tstage : Stage Nat), dictGet orchEx.workflow.stages orchEx.currentStage = some stage →
        stage.canTransitionTo "transact" = true →
        dictGet orchEx.workflow.stages "transact" = some tstage →
        tstage.getMissingPrerequisites orchEx.state ≠ [] →
        orchEx.processAction (.transitionAct "transact") =
          .ok (.elicitRequired
            ("Stage '" ++ "transact" ++ "' requires: " ++ pyListRepr (tstage.getMissingPrerequisites orchEx.state))
            (tstage.getMissingPrerequisites orchEx.state), orchEx))
    ∧ (∀ (c : Concierge Nat) (sid : Option String) (resp : NextStageResp) (c' : Concierge Nat)
        (cur f t m i : String),
        c.handleNextStage sid "transact" = some (resp, c') →
        c.sessionStageOf sid = some cur →
        resp = .transitionedResp f t m i →
        "transact" ∈ (dictGet c.transitions cur).getD []) :=
  c3_transition_guard orchEx "transact"

/-- C4 (amended): on every valid transition the orchestrator projects the
outgoing state with ISOLATE semantics — the new stage's local state is
the empty projection, whatever the session state holds and regardless of
any declared policy — advances the cursor, appends the transition record,
and answers transitioned with the new stage's entry prompt over that
fresh state. -/
theorem c4_transition_isolates {V : Type} (o : Orchestrator V) (target : String)
    (stage tstage : Stage V)
    (hst : dictGet o.workflow.stages o.currentStage = some stage)
    (hb : stage.canTransitionTo target = true)
    (hts : dictGet o.workflow.stages target = some tstage)
    (hm : tstage.getMissingPrerequisites o.state = []) :
    o.processAction (.transitionAct target) =
      .ok (.transitioned stage.name target
          (tstage.generatePrompt (applyTransitionPolicy .isolate o.state)),
        { o with
            workflow := { o.workflow with
              stages := dictSet o.workflow.stages target
                { tstage with localState := applyTransitionPolicy .isolate o.state } }
            currentStage := target
            history := o.history ++ [.transitionEntry stage.name target] })
    ∧ applyTransitionPolicy .isolate o.state = [] := by
  constructor
  · rw [processAction_transitionAct o target stage hst,
      handleTransition_valid o stage tstage target hst hb hts hm]
    rfl
  · rfl

/-- C4 witness: the valid transition browse → transact evaluated on the
concrete session holding symbol and quantity. -/
theorem c4_transition_isolates_witness :
    (dictGet orchReadyEx.workflow.stages orchReadyEx.currentStage = some browseStageEx
      ∧ browseStageEx.canTransitionTo "transact" = true
      ∧ dictGet orchReadyEx.workflow.stages "transact" = some transactStageEx
      ∧ transactStageEx.getMissingPrerequisites orchReadyEx.state = [])
    ∧ (orchReadyEx.processAction (.transitionAct "transact") =
        .ok (.transitioned browseStageEx.name "transact"
            (transactStageEx.generatePrompt (applyTransitionPolicy .isolate orchReadyEx.state)),
          { orchReadyEx with
              workflow := { orchReadyEx.workflow with
                stages := dictSet orchReadyEx.workflow.stages "transact"
                  { transactStageEx with localState := applyTransitionPolicy .isolate orchReadyEx.state } }
              currentStage := "transact"
              history := orchReadyEx.history ++ [.transitionEntry browseStageEx.name "transact"] })
      ∧ applyTransitionPolicy .isolate orchReadyEx.state = []) :=
  ⟨⟨rfl, rfl, rfl, rfl⟩,
    c4_transition_isolates orchReadyEx "transact" browseStageEx transactStageEx rfl rfl rfl rfl⟩

/-- C4 counterexample: the claim's TRANSFER policies are never applied.
On the valid transition browse → transact with outgoing state
[symbol 7, quantity 2], the code leaves the new stage's local state
empty, while the claimed TRANSFER_ALL projection is the full state and a
TRANSFER([symbol]) projection is nonempty: the declared-policy reading is
false on this input (no TransitionPolicy exists in the code at all). -/
theorem c4_policy_not_applied_counterexample :
    ((orchReadyEx.processAction (.transitionAct "transact")).toOption.map
        (fun p => (dictGet p.2.workflow.stages "transact").map Stage.localState))
      = some (some [])
    ∧ applyTransitionPolicy .transferAll orchReadyEx.state = [("symbol", 7), ("quantity", 2)]
    ∧ applyTransitionPolicy (.transferKeys ["symbol"]) orchReadyEx.state = [("symbol", 7)]
    ∧ ([] : PyDict Nat) ≠ [("symbol", 7), ("quantity", 2)]
    ∧ ([] : PyDict Nat) ≠ [("symbol", 7)] := by
  refine ⟨rfl, by decide, by decide, by decide, by decide⟩

/-- How a call_tool request is routed at the MCP layer. Modelled from the
spec: the protocol's tool dispatch ("Tool Registry and Dispatch ... maps
tool names to handlers") is performed by the underlying MCP server
library, outside this repository. Concierge._setup_staged_tools
(src/__init__.py) registers proceed_to_next_stage and terminate_session
as ordinary tools and overrides only list_tools; no call_tool interceptor
is installed (the metrics wrapper of _setup_metrics is pass-through), so
dispatch resolves any registered tool by name without consulting the
session's current stage. -/
inductive McpDispatch (V : Type) where
  | nextStage (resp : NextStageResp) (c' : Concierge V)
  | terminated (resp : TerminateResp) (c' : Concierge V)
  | userTool (name : String)
  | unknownTool (name : String)
deriving DecidableEq

/-- Modelled from the spec: call_tool routing at the MCP layer for the
Concierge server. The two synthetic names reach the engine handlers of
src/__init__.py; every other registered name reaches its registered user
handler, whatever the session's current stage; a name registered nowhere
is unknown. -/
def Concierge.mcpCallTool {V : Type} (c : Concierge V) (sid : Option String)
    (name : String) (args : PyDict String) : Option (McpDispatch V) :=
  if name = "proceed_to_next_stage" then
    (c.handleNextStage sid ((dictGet args "target_stage").getD "")).map
      (fun p => .nextStage p.1 p.2)
  else if name = "terminate_session" then
    (c.handleTerminateSession sid).map (fun p => .terminated p.1 p.2)
  else if name ∈ c.registeredTools.map MCPTool.name then
    some (.userTool name)
  else
    some (.unknownTool name)

/-- C1 (amended): at the engine layer, Workflow.call_tool rejects any tool
name outside the given stage's tools with the not-found error dict, and a
tool_result can only arise for a name in the stage's tools; at the MCP
layer, however, call_tool is not intercepted by the staged filter, so any
registered non-synthetic name dispatches to its handler regardless of the
session's current stage. -/
theorem c1_stage_gating {V : Type} (w : Workflow V) (stageName toolName : String)
    (args : PyDict V) (stage : Stage V)
    (hst : w.getStage stageName = .ok stage) :
    (dictGet stage.tools toolName = none →
        w.callTool stageName toolName args =
          .ok (.toolNotFound
            ("Tool '" ++ toolName ++ "' not found in stage '" ++ stageName ++ "'")
            (dictKeys stage.tools), w))
    ∧ (∀ (resp : Resp V) (w' : Workflow V),
        w.callTool stageName toolName args = .ok (resp, w') →
        resp.typeTag = "tool_result" →
        (dictGet stage.tools toolName).isSome = true)
    ∧ (∀ (c : Concierge V) (sid : Option String) (nm : String) (args2 : PyDict String),
        nm ≠ "proceed_to_next_stage" → nm ≠ "terminate_session" →
        nm ∈ c.registeredTools.map MCPTool.name →
        c.mcpCallTool sid nm args2 = some (.userTool nm)) := by
  refine ⟨?_, ?_, ?_⟩
  · intro hnone
    simp [Workflow.callTool, hst, hnone, exceptBind_ok, exceptPure]
  · intro resp w' h htag
    cases htool : dictGet stage.tools toolName with
    | none =>
        rw [Workflow.callTool] at h
        rw [hst] at h
        simp [exceptBind_ok, exceptPure, htool] at h
        rw [← h.1] at htag
        simp [Resp.typeTag] at htag
    | some tool => rfl
  · intro c sid nm args2 hp ht hmem
    simp [Concierge.mcpCallTool, hp, ht, hmem]

/-- C1 witness: the engine-layer gating evaluated on the concrete stock
workflow: buy is not a browse tool, so calling it in browse produces the
not-found error dict; and the MCP-layer clause holds for all servers. -/
theorem c1_stage_gating_witness :
    (stockWorkflowEx.getStage "browse" = .ok browseStageEx
      ∧ dictGet browseStageEx.tools "buy" = none)
    ∧ ((dictGet browseStageEx.tools "buy" = none →
        stockWorkflowEx.callTool "browse" "buy" [] =
          .ok (.toolNotFound
            ("Tool '" ++ "buy" ++ "' not found in stage '" ++ "browse" ++ "'")
            (dictKeys browseStageEx.tools), stockWorkflowEx))
    ∧ (∀ (resp : Resp Nat) (w' : Workflow Nat),
        stockWorkflowEx.callTool "browse" "buy" [] = .ok (resp, w') →
        resp.typeTag = "tool_result" →
        (dictGet browseStageEx.tools "buy").isSome = true)
    ∧ (∀ (c : Concierge Nat) (sid : Option String) (nm : String) (args2 : PyDict String),
        nm ≠ "proceed_to_next_stage" → nm ≠ "terminate_session" →
        nm ∈ c.registeredTools.map MCPTool.name →
        c.mcpCallTool sid nm args2 = some (.userTool nm))) :=
  ⟨⟨rfl, rfl⟩, c1_stage_gating stockWorkflowEx "browse" "buy" [] browseStageEx rfl⟩

/-- C1 counterexample: with session A at stage browse, buy belongs to the
transact stage only, yet the MCP call_tool request for buy dispatches to
the registered handler instead of failing with ToolNotFound: the staged
filter restricts list_tools only. -/
theorem c1_call_not_stage_filtered_counterexample :
    conciergeEx.sessionStageOf (some "A") = some "browse"
    ∧ "buy" ∉ (dictGet conciergeEx.stages "browse").getD []
    ∧ conciergeEx.mcpCallTool (some "A") "buy" [] = some (.userTool "buy") := by
  refine ⟨by decide, by decide, by decide⟩

/-- A minimal declared stage for the builder example. -/
def stageAEx : Stage Nat :=
  { name := "a", tools := [], transitions := [], prerequisites := [],
    localState := [], generatePrompt := fun _ => "" }

/-- C9 (amended): the declarative builder does not fail on a dangling
transition target: for a declared source stage the listed targets are
wired verbatim without being checked against the declared stages, an
entry keyed by an undeclared source is silently dropped, and the dangling
target only fails later, when validate_transition looks the target up and
raises the UnknownStage error. -/
theorem c9_dangling_target_accepted {V : Type} (w : Workflow V)
    (fromStage toStage : String) (st : Stage V) (gs : PyDict V)
    (h1 : dictGet w.stages fromStage = some st)
    (h2 : st.canTransitionTo toStage = true)
    (h3 : dictGet w.stages toStage = none) :
    w.validateTransition fromStage toStage gs =
      .error ("Stage '" ++ toStage ++ "' not found in workflow '" ++ w.name ++ "'")
    ∧ (∀ (nm ds : String) (sd : Stage V) (tos : List String),
        (dictGet (buildWorkflow nm ds [sd] (some [(sd.name, tos)])).stages sd.name).map
          Stage.transitions = some tos)
    ∧ (∀ (nm ds : String) (sd : Stage V) (src : String) (tos : List String),
        src ≠ sd.name →
        buildWorkflow nm ds [sd] (some [(src, tos)]) = buildWorkflow nm ds [sd] none) := by
  refine ⟨?_, ?_, ?_⟩
  · simp [Workflow.validateTransition, Workflow.canTransition, Workflow.getStage,
      h1, h2, h3, exceptBind_ok, exceptBind_error, exceptPure]
  · intro nm ds sd tos
    simp [buildWorkflow, Workflow.addStage, dictGet, dictSet]
  · intro nm ds sd src tos hne
    simp [buildWorkflow, Workflow.addStage, dictGet, dictSet, Ne.symm hne]

/-- C9 witness: the dangling wiring evaluated on a one-stage workflow with
transitions a → [b]: validation of a → b raises the stage-not-found
error. -/
theorem c9_dangling_target_accepted_witness :
    (dictGet (buildWorkflow "w" "" [stageAEx] (some [("a", ["b"])])).stages "a" =
        some { stageAEx with transitions := ["b"] }
      ∧ ({ stageAEx with transitions := ["b"] } : Stage Nat).canTransitionTo "b" = true
      ∧ dictGet (buildWorkflow "w" "" [stageAEx] (some [("a", ["b"])])).stages "b" = none)
    ∧ ((buildWorkflow "w" "" [stageAEx] (some [("a", ["b"])])).validateTransition "a" "b" [] =
        .error ("Stage '" ++ "b" ++ "' not found in workflow '" ++
          (buildWorkflow "w" "" [stageAEx] (some [("a", ["b"])])).name ++ "'")
    ∧ (∀ (nm ds : String) (sd : Stage Nat) (tos : List String),
        (dictGet (buildWorkflow nm ds [sd] (some [(sd.name, tos)])).stages sd.name).map
          Stage.transitions = some tos)
    ∧ (∀ (nm ds : String) (sd : Stage Nat) (src : String) (tos : List String),
        src ≠ sd.name →
        buildWorkflow nm ds [sd] (some [(src, tos)]) = buildWorkflow nm ds [sd] none)) :=
  ⟨⟨rfl, rfl, rfl⟩,
    c9_dangling_target_accepted (buildWorkflow "w" "" [stageAEx] (some [("a", ["b"])]))
      "a" "b" { stageAEx with transitions := ["b"] } [] rfl rfl rfl⟩

/-- C9 counterexample: declaring transitions a → [b] with b never declared
does not fail at build time — the workflow is constructed, keeps the
dangling target verbatim in stage a's transitions, and has no stage b. -/
theorem c9_build_succeeds_with_dangling_counterexample :
    (dictGet (buildWorkflow "w" "" [stageAEx] (some [("a", ["b"])])).stages "a").map
        Stage.transitions = some ["b"]
    ∧ dictGet (buildWorkflow "w" "" [stageAEx] (some [("a", ["b"])])).stages "b" = none
    ∧ (buildWorkflow "w" "" [stageAEx] (some [("a", ["b"])])).initialStage = some "a" := by
  refine ⟨rfl, rfl, rfl⟩
